import Mathlib

/-!
Verification development for the generic Modbus energy-meter driver
(xnrg_29_modbus.ino).  The C++ globals (NrgMbsParam, NrgMbsReg, NrgMbsUser
and the relevant fields of the host Energy/Settings structures) are packaged
into one explicit state record.  Machine integers are modelled as Nat/Int
with explicit wrap (% 256 for the uint8_t fields that can actually wrap);
float measurement values are idealised as exact rationals, and the frame
codec is modelled at the integer stage (the value_buff computation) of the
source.
-/

/-- ENERGY_MAX_PHASES: per-entry address slots (three phases). -/
def ENERGY_MAX_PHASES : Nat := 3

/-- ENERGY_MODBUS_MAX_DEVICES: up to three single phase devices on the bus. -/
def ENERGY_MODBUS_MAX_DEVICES : Nat := 3

/-- NRG_MBS_MAX_REGS: number of built-in register entries (enum EnergyModbusRegisters). -/
def NRG_MBS_MAX_REGS : Nat := 9

/-- nrg_mbs_reg_not_used: sentinel register address 0xFFFF. -/
def nrg_mbs_reg_not_used : Nat := 65535

/-- NRG_DT_MAX: upper bound of enum EnergyModbusDataType. -/
def NRG_DT_MAX : Nat := 9

/-- ENERGY_MODBUS_SPEED: default baudrate. -/
def ENERGY_MODBUS_SPEED : Int := 9600

/-- ENERGY_MODBUS_CONFIG: default serial framing (TS_SERIAL_8N1); the host
enum value is opaque here, we keep an abstract numeric code. -/
def ENERGY_MODBUS_CONFIG : Nat := 0

/-- ENERGY_MODBUS_ADDR: default Modbus device address. -/
def ENERGY_MODBUS_ADDR : Nat := 1

/-- ENERGY_MODBUS_FUNC: default Modbus function code. -/
def ENERGY_MODBUS_FUNC : Nat := 4

/-- ENERGY_MODBUS_DATATYPE: default datatype (NRG_DT_FLOAT = 0). -/
def ENERGY_MODBUS_DATATYPE : Nat := 0

/-- ENERGY_MODBUS_DECIMALS: default user decimal resolution. -/
def ENERGY_MODBUS_DECIMALS : Nat := 0

/-- One NrgMbsRegister_t entry: three per-phase addresses, a scale factor
(int16_t in the source; the driver only ever stores small values) and a
datatype code (uint32_t). -/
structure NrgMbsRegister where
  address : List Nat
  factor : Int
  datatype : Nat
deriving Repr, DecidableEq

/-- Default element used for out-of-range list reads (never hit on the
well-formed states the driver builds). -/
def defaultReg : NrgMbsRegister := { address := [0, 0, 0], factor := 0, datatype := 0 }

/-- Register entry as initialised by EnergyModbusReadRegisters after calloc:
datatype ENERGY_MODBUS_DATATYPE, all addresses nrg_mbs_reg_not_used. -/
def initReg : NrgMbsRegister :=
  { address := List.replicate ENERGY_MAX_PHASES nrg_mbs_reg_not_used
    factor := 0
    datatype := ENERGY_MODBUS_DATATYPE }

/-- One NrgMbsUser_t slot.  Float NaN ("no data yet") is modelled as
Option.none; the char* names are Option String (none = null pointer). -/
structure NrgUserSlot where
  data : List (Option ℚ)
  json_name : Option String
  gui_name : Option String
  gui_unit : Option String
  resolution : Nat
deriving Repr, DecidableEq

/-- User slot as initialised after calloc plus the init-defaults loop:
resolution ENERGY_MODBUS_DECIMALS, all data NaN. -/
def initUserSlot : NrgUserSlot :=
  { data := List.replicate ENERGY_MAX_PHASES none
    json_name := none, gui_name := none, gui_unit := none
    resolution := ENERGY_MODBUS_DECIMALS }

/-- The extra calloc'd slot (user_adds + 1 slots are allocated); it stays
zero-initialised. -/
def zeroUserSlot : NrgUserSlot :=
  { data := List.replicate ENERGY_MAX_PHASES (some 0)
    json_name := none, gui_name := none, gui_unit := none
    resolution := 0 }

/-- Host Energy fields the driver reads or writes. -/
structure EnergyT where
  phase_count : Nat
  voltage_available : Bool
  current_available : Bool
  voltage_common : Bool
  frequency_common : Bool
  data_valid : List Nat
  voltage : List ℚ
  current : List ℚ
  active_power : List ℚ
  apparent_power : List ℚ
  reactive_power : List ℚ
  power_factor : List ℚ
  frequency : List ℚ
  import_active : List ℚ
  export_active : List ℚ
deriving Repr, DecidableEq

/-- The driver's global state: NrgMbsParam, the NrgMbsReg array, the
NrgMbsUser array (none = null pointer) and the host fields it touches.
user_adds and total_regs are uint8_t in the source, so updates that can
wrap are taken mod 256. -/
structure NrgState where
  energy : EnergyT
  serial_bps : Int
  serial_config : Nat
  device_address : List Nat
  devices : Nat
  function : Nat
  total_regs : Nat
  user_adds : Nat
  phase : Nat
  state : Nat
  retry : Nat
  mutex : Bool
  regs : List NrgMbsRegister
  user : Option (List NrgUserSlot)
  hardware_energy_total : Bool
  energy_phase_flag : Bool
deriving Repr, DecidableEq

/-- Update register i of the array (in-bounds writes only, as in the source
where i is always within the calloc'd array). -/
def updReg (l : List NrgMbsRegister) (i : Nat) (f : NrgMbsRegister → NrgMbsRegister) :
    List NrgMbsRegister :=
  l.set i (f (l.getD i defaultReg))

/-- Update user slot i (no-op when the user array is null, where the C code
would dereference a null pointer). -/
def updUser (st : NrgState) (i : Nat) (f : NrgUserSlot → NrgUserSlot) : NrgState :=
  { st with user := st.user.map (fun l => l.set i (f (l.getD i initUserSlot))) }

/-- The per-phase address writing loop shared by the built-in-quantity and
user-register parsers: for each array element write address[phase], advance
phase, break once phase reaches ENERGY_MAX_PHASES.  Returns the updated
register array and the final value of the local phase counter. -/
def writeAddrsGo (regs : List NrgMbsRegister) (i : Nat) :
    List Nat → Nat → List NrgMbsRegister × Nat
  | [], phase => (regs, phase)
  | a :: rest, phase =>
    let regs2 := updReg regs i (fun r => { r with address := r.address.set phase a })
    if ENERGY_MAX_PHASES ≤ phase + 1 then (regs2, phase + 1)
    else writeAddrsGo regs2 i rest (phase + 1)

/-- The device-address writing loop of the "Address" key: write
device_address[devices], advance devices, break at ENERGY_MODBUS_MAX_DEVICES. -/
def writeDevAddrsGo (dst : List Nat) : List Nat → Nat → List Nat × Nat
  | [], devices => (dst, devices)
  | a :: rest, devices =>
    let dst2 := dst.set devices a
    if ENERGY_MODBUS_MAX_DEVICES ≤ devices + 1 then (dst2, devices + 1)
    else writeDevAddrsGo dst2 rest (devices + 1)

/-- The [LEGACY] "M" divider conversion loop body:
while (divider > 1) { divider /= 10; factor--; }.  Modelled with explicit
fuel to keep the definition structurally recursive; the divider strictly
decreases while it stays above 1, so fuel = initial divider is always
sufficient and the function computes exactly what the while loop does. -/
def legacyFactorGo : Nat → Nat → Int → Int
  | 0, _, factor => factor
  | fuel + 1, divider, factor =>
    if 1 < divider then legacyFactorGo fuel (divider / 10) (factor - 1)
    else factor

/-- int32_t divider = M; int factor = 0; while (divider > 1) { divider /= 10;
factor--; }  (the conversion applied to the legacy "M" key). -/
def legacyFactor (m : Nat) : Int := legacyFactorGo m m 0

/-!  Frame codec (EnergyModbusLoop, lines 341-369).  The four 32-bit integer
decoders, written over the payload bytes buffer[3..6] exactly as the source
bit operations, with the uint32_t wrap explicit.  toInt32 is the two's
complement reinterpretation produced by the int32_t arithmetic. -/

/-- NRG_DT_U32: buffer[3]<<24 | buffer[4]<<16 | buffer[5]<<8 | buffer[6]. -/
def decodeU32 (b3 b4 b5 b6 : Nat) : Nat :=
  (b3 <<< 24 ||| b4 <<< 16 ||| b5 <<< 8 ||| b6) % 2 ^ 32

/-- NRG_DT_U32_SW: buffer[5]<<24 | buffer[6]<<16 | buffer[3]<<8 | buffer[4]. -/
def decodeU32swapped (b3 b4 b5 b6 : Nat) : Nat :=
  (b5 <<< 24 ||| b6 <<< 16 ||| b3 <<< 8 ||| b4) % 2 ^ 32

/-- Two's complement reading of a 32-bit pattern. -/
def toInt32 (u : Nat) : Int :=
  if u < 2 ^ 31 then (u : Int) else (u : Int) - 2 ^ 32

/-- NRG_DT_S32: the same bit pattern as decodeU32 read as int32_t. -/
def decodeS32 (b3 b4 b5 b6 : Nat) : Int :=
  toInt32 ((b3 <<< 24 ||| b4 <<< 16 ||| b5 <<< 8 ||| b6) % 2 ^ 32)

/-- NRG_DT_S32_SW: the same bit pattern as decodeU32swapped read as int32_t. -/
def decodeS32swapped (b3 b4 b5 b6 : Nat) : Int :=
  toInt32 ((b5 <<< 24 ||| b6 <<< 16 ||| b3 <<< 8 ||| b4) % 2 ^ 32)

/-!  Scaling stage (EnergyModbusLoop, lines 371-382), over exact rationals. -/

/-- uint32_t factor = 1; while (scaler) { factor *= 10; scaler--; } -/
def powLoop : Nat → Nat → Nat
  | 0, factor => factor
  | n + 1, factor => powLoop n (factor * 10)

/-- Apply the register scale factor to a decoded value: multiply by
10^|factor| when factor is non-negative, divide otherwise. -/
def scaleValue (v : ℚ) (f : Int) : ℚ :=
  let factor : Nat := powLoop f.natAbs 1
  if f < 0 then v / (factor : ℚ) else v * (factor : ℚ)

theorem powLoop_eq (n a : Nat) : powLoop n a = a * 10 ^ n := by
  induction n generalizing a with
  | zero => simp [powLoop]
  | succ n ih => rw [powLoop, ih]; ring

/-!  Poll state machine (EnergyModbusLoop).  The transport is external: one
tick receives the outcome of EnergyModbus->ReceiveReady()/ReceiveBuffer() as
an RxEvent (noData = nothing pending; errorCode e = ReceiveBuffer returned a
nonzero error; value v = a good frame whose payload the frame codec decoded
to v, idealised as a rational).  The tick returns the new state, the request
passed to EnergyModbus->Send (none when no request is sent this tick) and
whether EnergyUpdateTotal() was signalled. -/

/-- Outcome of the transport receive poll at the start of a tick. -/
inductive RxEvent where
  | noData : RxEvent
  | errorCode : Nat → RxEvent
  | value : ℚ → RxEvent
deriving DecidableEq

/-- bool data_ready = EnergyModbus->ReceiveReady(). -/
def rxReady : RxEvent → Bool
  | RxEvent.noData => false
  | _ => true

/-- Arguments of one EnergyModbus->Send call. -/
structure SendRequest where
  deviceAddress : Nat
  functionCode : Nat
  registerAddress : Nat
  registerCount : Nat
deriving Repr, DecidableEq

/-- The switch (NrgMbsParam.state) of lines 384-416, host-sink half: for the
nine built-in register indices write the decoded and scaled value into the
matching Energy slot of the current phase; other indices leave Energy alone
(they fall to the user-cache default arm). -/
def routeEnergy (state phase : Nat) (v : ℚ) (e : EnergyT) : EnergyT :=
  if state = 0 then { e with voltage := e.voltage.set phase v }
  else if state = 1 then { e with current := e.current.set phase v }
  else if state = 2 then { e with active_power := e.active_power.set phase v }
  else if state = 3 then { e with apparent_power := e.apparent_power.set phase v }
  else if state = 4 then { e with reactive_power := e.reactive_power.set phase v }
  else if state = 5 then { e with power_factor := e.power_factor.set phase v }
  else if state = 6 then { e with frequency := e.frequency.set phase v }
  else if state = 7 then { e with import_active := e.import_active.set phase v }
  else if state = 8 then { e with export_active := e.export_active.set phase v }
  else e

/-- The switch of lines 384-416, default arm: for register indices past the
nine built-in ones, write the value into the user cache slot of the current
phase, guarded by the NrgMbsUser null check; built-in indices leave the
user array alone. -/
def routeUser (state phase : Nat) (v : ℚ) (u : Option (List NrgUserSlot)) :
    Option (List NrgUserSlot) :=
  if state < NRG_MBS_MAX_REGS then u
  else
    match u with
    | none => none
    | some slots =>
      let i := state - NRG_MBS_MAX_REGS
      let slot := slots.getD i initUserSlot
      some (slots.set i { slot with data := slot.data.set phase (some v) })

/-- The whole switch: exactly one of the host sink and the user cache is
updated, selected by the register index. -/
def routeValue (st : NrgState) (v : ℚ) : NrgState :=
  { st with
    energy := routeEnergy st.state st.phase v st.energy
    user := routeUser st.state st.phase v st.user }

/-- The cursor-advance do-while of lines 418-435.  Arguments after the fuel:
the NrgMbsParam.state register index, the NrgMbsParam.phase index and the
local variable phase (p) used for the sentinel check (p is updated to the
current phase only when devices == 1).  Returns the final (state, phase)
cursor and whether the scan wrapped (the break path, which calls
EnergyUpdateTotal()).  The loop always breaks by itself once the register
index wraps, so any fuel beyond total_regs * phase_count + total_regs +
phase_count + 2 gives the exact loop semantics. -/
def advanceLoop (regs : List NrgMbsRegister) (pc total devices : Nat) :
    Nat → Nat → Nat → Nat → Nat × Nat × Bool
  | 0, state, phase, _ => (state, phase, false)
  | fuel + 1, state, phase, p =>
    let phase2 := phase + 1
    if pc ≤ phase2 then
      let state2 := state + 1
      if total ≤ state2 then (0, 0, true)
      else
        let p2 := if devices = 1 then 0 else p
        if (regs.getD state2 defaultReg).address.getD p2 0 = nrg_mbs_reg_not_used then
          advanceLoop regs pc total devices fuel state2 0 p2
        else (state2, 0, false)
    else
      let p2 := if devices = 1 then phase2 else p
      if (regs.getD state defaultReg).address.getD p2 0 = nrg_mbs_reg_not_used then
        advanceLoop regs pc total devices fuel state phase2 p2
      else (state, phase2, false)

/-- Fuel that always lets advanceLoop run to its own break. -/
def advanceFuel (st : NrgState) : Nat :=
  st.total_regs * st.energy.phase_count + st.total_regs + st.energy.phase_count + 2

/-- The no-error receive branch (lines 313-435): clear data_valid, scale the
decoded value, route it, then advance the cursor.  Returns the state and
whether EnergyUpdateTotal() fired. -/
def consumeResponse (st : NrgState) (v : ℚ) : NrgState × Bool :=
  let st1 := { st with energy :=
    { st.energy with data_valid := st.energy.data_valid.set st.phase 0 } }
  let reg := st1.regs.getD st1.state defaultReg
  let value := scaleValue v reg.factor
  let st2 := routeValue st1 value
  let out := advanceLoop st2.regs st2.energy.phase_count st2.total_regs st2.devices
    (advanceFuel st2) st2.state st2.phase 0
  ({ st2 with state := out.1, phase := out.2.1 }, out.2.2)

/-- One EnergyModbusLoop tick.  ota is TasmotaGlobal.ota_state_flag.  The
mutex is set on entry and cleared on exit in the source; between ticks it is
false, so the net effect on the stored state is nothing, and we keep the
field untouched. -/
def EnergyModbusLoop (ota : Bool) (rx : RxEvent) (st : NrgState) :
    NrgState × Option SendRequest × Bool :=
  if st.mutex || ota then (st, none, false)
  else
    let consumed :=
      match rx with
      | RxEvent.noData => (st, false)
      | RxEvent.errorCode _ => (st, false)
      | RxEvent.value v => consumeResponse st v
    let st1 := consumed.1
    let address := if 1 < st1.devices then st1.phase else 0
    let phase := if 1 < st1.devices then 0 else st1.phase
    if st1.retry = 0 || rxReady rx then
      let reg := st1.regs.getD st1.state defaultReg
      ({ st1 with retry := 1 },
       some { deviceAddress := st1.device_address.getD address 0
              functionCode := st1.function
              registerAddress := reg.address.getD phase 0
              registerCount := 2 - reg.datatype % 2 },
       consumed.2)
    else
      ({ st1 with retry := st1.retry - 1 }, none, consumed.2)

/-!  Schema builder (EnergyModbusReadRegisters / EnergyModbusReadUserRegisters).
The rule-file JSON is modelled as an already-tokenised configuration value:
each documented key is an Option (none = key absent / falsy).  Heap
allocation is external, so the two calloc outcomes are Boolean inputs. -/

/-- A register address value: scalar or array ("R":0 or "R":[0,2,4]). -/
inductive RVal where
  | num : Nat → RVal
  | arr : List Nat → RVal
deriving Repr, DecidableEq

/-- The object form of a built-in quantity value: {"R":..,"T":..,"F":..,"M":..}. -/
structure RegFields where
  R : Option RVal
  T : Option Nat
  F : Option Int
  M : Option Nat
deriving Repr, DecidableEq

/-- A built-in quantity key's value: bare number, bare array, or object. -/
inductive QuantityVal where
  | num : Nat → QuantityVal
  | arr : List Nat → QuantityVal
  | obj : RegFields → QuantityVal
deriving Repr, DecidableEq

/-- One "User" object: {"R":..,"T":..,"F":..,"M":..,"J":..,"G":..,"U":..,"D":..}. -/
structure UserFields where
  R : Option RVal
  T : Option Nat
  F : Option Int
  M : Option Nat
  J : Option String
  G : Option String
  U : Option String
  D : Option Nat
deriving Repr, DecidableEq

/-- An element of a "User" array: an object, or any non-object value (the
source breaks out of the array loop at the first non-object element). -/
inductive UserItem where
  | obj : UserFields → UserItem
  | other : UserItem
deriving Repr, DecidableEq

/-- The "User" key's value: an array, a single object, or a single truthy
non-object value (which still counts one user_adds but is never parsed). -/
inductive UserVal where
  | arrV : List UserItem → UserVal
  | objV : UserFields → UserVal
  | otherV : UserVal
deriving Repr, DecidableEq

/-- The whole rule-file object.  quantities lists the nine built-in quantity
keys in enum EnergyModbusRegisters order (Voltage .. ExportActive). -/
structure ModbusConfig where
  baud : Option Int
  config : Option Nat
  address : Option RVal
  function : Option Nat
  quantities : List (Option QuantityVal)
  user : Option UserVal
deriving Repr, DecidableEq

/-- The shared R/T/F/M field parsing applied to register entry i (used for
the object form of built-in quantities and for user registers): write the
address(es), then overwrite datatype, factor, and the legacy-M factor when
present.  Also returns the local phase counter (number of addresses seen,
capped at ENERGY_MAX_PHASES). -/
def applyRegFields (regs : List NrgMbsRegister) (i : Nat) (o : RegFields) :
    List NrgMbsRegister × Nat :=
  let rp :=
    match o.R with
    | some (RVal.arr l) => writeAddrsGo regs i l 0
    | some (RVal.num n) =>
      (updReg regs i (fun r => { r with address := r.address.set 0 n }), 1)
    | none => (regs, 0)
  let regs1 := rp.1
  let regs2 :=
    match o.T with
    | some t => updReg regs1 i (fun r => { r with datatype := t })
    | none => regs1
  let regs3 :=
    match o.F with
    | some f => updReg regs2 i (fun r => { r with factor := f })
    | none => regs2
  let regs4 :=
    match o.M with
    | some m => updReg regs3 i (fun r => { r with factor := legacyFactor m })
    | none => regs3
  (regs4, rp.2)

/-- if (phase > Energy.phase_count) { devices = 1; phase_count = phase; } -/
def applyPhaseRaise (phase : Nat) (st : NrgState) : NrgState :=
  if st.energy.phase_count < phase then
    { st with devices := 1, energy := { st.energy with phase_count := phase } }
  else st

/-- The switch (names) of lines 716-734: host side effects flagged while a
built-in quantity is configured. -/
def applySideFlags (names phase : Nat) (st : NrgState) : NrgState :=
  if names = 0 then
    let e1 := { st.energy with voltage_available := true }
    let e2 := if phase = 1 then { e1 with voltage_common := true } else e1
    { st with energy := e2 }
  else if names = 1 then
    { st with energy := { st.energy with current_available := true } }
  else if names = 6 then
    if phase = 1 then { st with energy := { st.energy with frequency_common := true } }
    else st
  else if names = 7 then
    { st with hardware_energy_total := true }
  else st

/-- Processing of one present built-in quantity key (lines 654-746). -/
def processQuantity (names : Nat) (q : QuantityVal) (st : NrgState) : NrgState :=
  let rp :=
    match q with
    | QuantityVal.obj o => applyRegFields st.regs names o
    | QuantityVal.arr l => writeAddrsGo st.regs names l 0
    | QuantityVal.num n =>
      (updReg st.regs names (fun r => { r with address := r.address.set 0 n }), 1)
  let st1 := { st with regs := rp.1 }
  let st2 := applyPhaseRaise rp.2 st1
  applySideFlags names rp.2 st2

/-- Lines 512-533 of EnergyModbusReadUserRegisters: the "J"/"G"/"U"/"D"
presentation fields, reached after the register fields were written.
Returns false (drop) when "J" or "G" is absent. -/
def applyUserMeta (o : UserFields) (add_index : Nat) (st : NrgState) : Bool × NrgState :=
  match o.J with
  | none => (false, st)
  | some j =>
    let st3 := updUser st add_index (fun s => { s with json_name := some j })
    match o.G with
    | none => (false, st3)
    | some g =>
      let st4 := updUser st3 add_index (fun s =>
        let s1 := { s with gui_name := some g }
        let s2 := { s1 with gui_unit := some "" }
        let s3 :=
          match o.U with
          | some u => { s2 with gui_unit := some u }
          | none => s2
        let s4 := { s3 with resolution := ENERGY_MODBUS_DECIMALS }
        match o.D with
        | some d => { s4 with resolution := d }
        | none => s4)
      (true, st4)

/-- EnergyModbusReadUserRegisters: parse one user object into register entry
NRG_MBS_MAX_REGS + add_index and user slot add_index.  Returns false (drop)
when "R" is absent, or when "J" or "G" is absent — in the latter cases the
register writes and the phase-count raise have already happened. -/
def EnergyModbusReadUserRegisters (o : UserFields) (add_index : Nat) (st : NrgState) :
    Bool × NrgState :=
  let reg_index := NRG_MBS_MAX_REGS + add_index
  match o.R with
  | none => (false, st)
  | some rv =>
    let rp :=
      match rv with
      | RVal.arr l => writeAddrsGo st.regs reg_index l 0
      | RVal.num n =>
        (updReg st.regs reg_index (fun r => { r with address := r.address.set 0 n }), 1)
    let st1 := applyPhaseRaise rp.2 { st with regs := rp.1 }
    let regs2 :=
      match o.T with
      | some t => updReg st1.regs reg_index (fun r => { r with datatype := t })
      | none => st1.regs
    let regs3 :=
      match o.F with
      | some f => updReg regs2 reg_index (fun r => { r with factor := f })
      | none => regs2
    let regs4 :=
      match o.M with
      | some m => updReg regs3 reg_index (fun r => { r with factor := legacyFactor m })
      | none => regs3
    let st2 := { st1 with regs := regs4 }
    applyUserMeta o add_index st2

/-- uint8_t decrement (user_adds-- on a dropped entry). -/
def decUser8 (n : Nat) : Nat := (n + 255) % 256

/-- The "User" array loop of lines 754-764: stop at the first non-object
element; on success advance add_index, on a drop decrement user_adds. -/
def processUserList : List UserItem → Nat → NrgState → NrgState
  | [], _, st => st
  | UserItem.other :: _, _, st => st
  | UserItem.obj o :: rest, add_index, st =>
    let r := EnergyModbusReadUserRegisters o add_index st
    if r.1 then processUserList rest (add_index + 1) r.2
    else processUserList rest add_index { r.2 with user_adds := decUser8 r.2.user_adds }

/-- The whole "User" value processing (lines 751-774), ending with
total_regs = NRG_MBS_MAX_REGS + user_adds (uint8_t). -/
def processUser (uv : Option UserVal) (st : NrgState) : NrgState :=
  match uv with
  | none => st
  | some v =>
    let st1 :=
      match v with
      | UserVal.arrV items => processUserList items 0 st
      | UserVal.objV o =>
        let r := EnergyModbusReadUserRegisters o 0 st
        if r.1 then r.2 else { r.2 with user_adds := decUser8 r.2.user_adds }
      | UserVal.otherV => st
    { st1 with total_regs := (NRG_MBS_MAX_REGS + st1.user_adds) % 256 }

/-- The final datatype clamp (lines 776-780): for i < total_regs, any
datatype at or above NRG_DT_MAX is reset to ENERGY_MODBUS_DATATYPE. -/
def clampRegs : Nat → List NrgMbsRegister → List NrgMbsRegister
  | _, [] => []
  | 0, l => l
  | n + 1, r :: rest =>
    (if NRG_DT_MAX ≤ r.datatype then { r with datatype := ENERGY_MODBUS_DATATYPE } else r)
      :: clampRegs n rest

/-- The multi-device epilogue (lines 781-786). -/
def applyMultiDevice (st : NrgState) : NrgState :=
  if 1 < st.devices then
    { st with
      energy := { st.energy with
        phase_count := st.devices, voltage_common := false, frequency_common := false }
      energy_phase_flag := true }
  else st

/-- Lines 569-589: init defaults and count the "User" entries (uint8_t
user_adds) before the register array is sized and calloc'd. -/
def buildDefaults (c : ModbusConfig) (st0 : NrgState) : NrgState :=
  let st := { st0 with
    energy := { st0.energy with phase_count := 1 }
    serial_bps := ENERGY_MODBUS_SPEED
    serial_config := ENERGY_MODBUS_CONFIG
    device_address := st0.device_address.set 0 ENERGY_MODBUS_ADDR
    devices := 1
    function := ENERGY_MODBUS_FUNC
    user_adds := 0 }
  let st := match c.user with
    | none => st
    | some (UserVal.arrV items) => { st with user_adds := items.length % 256 }
    | some _ => { st with user_adds := 1 }
  { st with total_regs := (NRG_MBS_MAX_REGS + st.user_adds) % 256 }

/-- Lines 592-774, reached when the register-array calloc succeeded:
initialise the arrays, parse the bus parameters, the nine built-in quantity
keys and the "User" entries. -/
def buildMain (c : ModbusConfig) (userAlloc : Bool) (st1 : NrgState) : NrgState :=
  let st := { st1 with regs := List.replicate st1.total_regs initReg }
  let st :=
    if st.user_adds ≠ 0 then
      if userAlloc then
        { st with user := some (List.replicate st.user_adds initUserSlot ++ [zeroUserSlot]) }
      else { st with user_adds := 0, total_regs := NRG_MBS_MAX_REGS }
    else st
  let st := match c.baud with
    | some b => { st with serial_bps := b }
    | none => st
  let st := match c.config with
    | some x => { st with serial_config := x }
    | none => st
  let st := match c.address with
    | none => st
    | some (RVal.arr l) =>
      let da := writeDevAddrsGo st.device_address l 0
      { st with device_address := da.1, devices := da.2 }
    | some (RVal.num n) =>
      { st with device_address := st.device_address.set 0 n, devices := 1 }
  let st := match c.function with
    | some f => { st with function := f }
    | none => st
  let st := { st with energy :=
    { st.energy with voltage_available := false, current_available := false } }
  let st := (List.range NRG_MBS_MAX_REGS).foldl
    (fun acc names =>
      match c.quantities.getD names none with
      | none => acc
      | some q => processQuantity names q acc) st
  processUser c.user st

/-- Lines 776-786: the final datatype clamp and the multi-device epilogue. -/
def finishBuild (st : NrgState) : NrgState :=
  applyMultiDevice { st with regs := clampRegs st.total_regs st.regs }

/-- EnergyModbusReadRegisters.  cfg = none models RuleLoadFile returning no
or invalid data (the three early "return false" paths); regAlloc/userAlloc
are the outcomes of the two callocs.  Returns the C function's Bool result
and the final global state. -/
def EnergyModbusReadRegisters (cfg : Option ModbusConfig) (regAlloc userAlloc : Bool)
    (st0 : NrgState) : Bool × NrgState :=
  match cfg with
  | none => (false, st0)
  | some c =>
    let st := buildDefaults c st0
    if regAlloc then (true, finishBuild (buildMain c userAlloc st))
    else (false, st)

/-- EnergyModbusSnsInit's transport decision: the TasmotaModbus object is
created and polling starts only when the schema build succeeded and the
serial begin succeeded; otherwise the energy driver is disabled. -/
def EnergyModbusSnsInitTransport (buildOk beginOk : Bool) : Bool :=
  buildOk && beginOk

/-- A boot-time all-zero global state (what calloc/static initialisation
gives before EnergyModbusReadRegisters runs). -/
def initState : NrgState :=
  { energy :=
    { phase_count := 0
      voltage_available := false, current_available := false
      voltage_common := false, frequency_common := false
      data_valid := List.replicate ENERGY_MAX_PHASES 0
      voltage := List.replicate ENERGY_MAX_PHASES 0
      current := List.replicate ENERGY_MAX_PHASES 0
      active_power := List.replicate ENERGY_MAX_PHASES 0
      apparent_power := List.replicate ENERGY_MAX_PHASES 0
      reactive_power := List.replicate ENERGY_MAX_PHASES 0
      power_factor := List.replicate ENERGY_MAX_PHASES 0
      frequency := List.replicate ENERGY_MAX_PHASES 0
      import_active := List.replicate ENERGY_MAX_PHASES 0
      export_active := List.replicate ENERGY_MAX_PHASES 0 }
    serial_bps := 0, serial_config := 0
    device_address := List.replicate ENERGY_MODBUS_MAX_DEVICES 0
    devices := 0, function := 0, total_regs := 0, user_adds := 0
    phase := 0, state := 0, retry := 0, mutex := false
    regs := [], user := none
    hardware_energy_total := false, energy_phase_flag := false }

/-!  Claim theorems. -/

/-- C8: for every 4-byte payload, the swapped 32-bit decoders differ from the
non-swapped ones only in which 16-bit register is taken as the high word:
decoding payload registers (A,B) = ((b3,b4),(b5,b6)) with the swapped decoder
equals decoding (B,A) with the non-swapped decoder, for the signed pair and
for the unsigned pair. -/
theorem C8_swapped_word_decode (b3 b4 b5 b6 : Nat) :
    decodeS32swapped b3 b4 b5 b6 = decodeS32 b5 b6 b3 b4 ∧
    decodeU32swapped b3 b4 b5 b6 = decodeU32 b5 b6 b3 b4 :=
  ⟨rfl, rfl⟩

/-- C9: the scaling stage computes 10^|factor| by repeated multiplication,
factor 0 is a strict no-op, and scaling by f then by -f restores the value
for every integer f in [-4,4] (exact over the rational idealisation of the
float arithmetic, hence within any floating-point rounding tolerance). -/
theorem C9_scaling_invariance :
    (∀ v : ℚ, scaleValue v 0 = v) ∧
    (∀ f : Int, powLoop f.natAbs 1 = 10 ^ f.natAbs) ∧
    (∀ (v : ℚ) (f : Int), -4 ≤ f → f ≤ 4 → scaleValue (scaleValue v f) (-f) = v) := by
  have hpow : ∀ f : Int, powLoop f.natAbs 1 = 10 ^ f.natAbs := by
    intro f; rw [powLoop_eq]; ring
  have hzero : ∀ v : ℚ, scaleValue v 0 = v := by
    intro v; simp [scaleValue, powLoop]
  refine ⟨hzero, hpow, ?_⟩
  intro v f _ _
  rcases lt_trichotomy f 0 with hf | hf | hf
  · have hnf : ¬ (-f < 0) := by omega
    have hne : ((powLoop f.natAbs 1 : Nat) : ℚ) ≠ 0 := by
      rw [hpow]; push_cast; positivity
    simp only [scaleValue, if_pos hf, if_neg hnf, Int.natAbs_neg]
    exact div_mul_cancel₀ v hne
  · subst hf; rw [neg_zero, hzero, hzero]
  · have hnf : ¬ (f < 0) := by omega
    have hmf : -f < 0 := by omega
    have hne : ((powLoop f.natAbs 1 : Nat) : ℚ) ≠ 0 := by
      rw [hpow]; push_cast; positivity
    simp only [scaleValue, if_neg hnf, if_pos hmf, Int.natAbs_neg]
    exact mul_div_cancel_right₀ v hne

/-- C9 witness: scaling 7 by factor 3 and back by factor -3 yields 7. -/
theorem C9_scaling_invariance_witness : scaleValue (scaleValue 7 3) (-3) = 7 :=
  C9_scaling_invariance.2.2 7 3 (by decide) (by decide)

/-- C6 counterexample: M = 5 is not a power of ten; the largest power of ten
at or below 5 is 1 = 10^0 and legacyFactor 1 = 0, so a result truncating
toward the next lower power of ten would be 0; the conversion loop instead
yields -1 (an effective divisor of 10, the next higher power of ten). -/
theorem C6_counterexample : legacyFactor 5 = -1 ∧ legacyFactor 1 = 0 ∧
    legacyFactor 5 ≠ legacyFactor 1 := by decide

/-- C6 amended: the conversion maps M=1 to 0, M=10 to -1, M=100 to -2,
M=1000 to -3, M=10000 to -4 by repeatedly dividing the divisor by 10 while
it is greater than 1 and decrementing a counter; for non-power-of-ten M the
count of divisions needed to bring the integer quotient to at most 1 gives
F = -1 for M in [2,19], F = -2 for M in [20,199], F = -3 for M in
[200,1999] and F = -4 for M in [2000,19999] — i.e. the effective divisor
10^|F| is the smallest power of ten with M div 10^|F| at most 1, which for
most non-powers of ten is the next HIGHER power of ten, not the lower one. -/
theorem legacyFactorGo_le_one (fuel d : Nat) (f : Int) (h : d ≤ 1) :
    legacyFactorGo fuel d f = f := by
  cases fuel with
  | zero => rfl
  | succ n => unfold legacyFactorGo; rw [if_neg (by omega)]

theorem legacyFactorGo_step (fuel d : Nat) (f : Int) (h : 2 ≤ d) :
    legacyFactorGo (fuel + 1) d f = legacyFactorGo fuel (d / 10) (f - 1) := by
  rw [show legacyFactorGo (fuel + 1) d f
      = if 1 < d then legacyFactorGo fuel (d / 10) (f - 1) else f from rfl,
    if_pos (by omega)]

theorem C6_legacy_divisor :
    legacyFactor 1 = 0 ∧ legacyFactor 10 = -1 ∧ legacyFactor 100 = -2 ∧
    legacyFactor 1000 = -3 ∧ legacyFactor 10000 = -4 ∧
    (∀ m : Nat, 2 ≤ m → m ≤ 19 → legacyFactor m = -1) ∧
    (∀ m : Nat, 20 ≤ m → m ≤ 199 → legacyFactor m = -2) ∧
    (∀ m : Nat, 200 ≤ m → m ≤ 1999 → legacyFactor m = -3) ∧
    (∀ m : Nat, 2000 ≤ m → m ≤ 19999 → legacyFactor m = -4) := by
  refine ⟨by decide, by decide, by decide, by decide, by decide, ?_, ?_, ?_, ?_⟩
  · intro m h1 h2
    obtain ⟨k, rfl⟩ : ∃ k, m = k + 1 := ⟨m - 1, by omega⟩
    unfold legacyFactor
    rw [legacyFactorGo_step _ _ _ (by omega), legacyFactorGo_le_one _ _ _ (by omega)]
    norm_num
  · intro m h1 h2
    obtain ⟨k, rfl⟩ : ∃ k, m = k + 2 := ⟨m - 2, by omega⟩
    unfold legacyFactor
    rw [legacyFactorGo_step _ _ _ (by omega), legacyFactorGo_step _ _ _ (by omega),
      legacyFactorGo_le_one _ _ _ (by omega)]
    norm_num
  · intro m h1 h2
    obtain ⟨k, rfl⟩ : ∃ k, m = k + 3 := ⟨m - 3, by omega⟩
    unfold legacyFactor
    rw [legacyFactorGo_step _ _ _ (by omega), legacyFactorGo_step _ _ _ (by omega),
      legacyFactorGo_step _ _ _ (by omega), legacyFactorGo_le_one _ _ _ (by omega)]
    norm_num
  · intro m h1 h2
    obtain ⟨k, rfl⟩ : ∃ k, m = k + 4 := ⟨m - 4, by omega⟩
    unfold legacyFactor
    rw [legacyFactorGo_step _ _ _ (by omega), legacyFactorGo_step _ _ _ (by omega),
      legacyFactorGo_step _ _ _ (by omega), legacyFactorGo_step _ _ _ (by omega),
      legacyFactorGo_le_one _ _ _ (by omega)]
    norm_num

/-- C6 witness: M = 50 falls in the [20,199] band and converts to -2. -/
theorem C6_legacy_divisor_witness : legacyFactor 50 = -2 :=
  C6_legacy_divisor.2.2.2.2.2.2.1 50 (by decide) (by decide)

/-!  Concrete configurations used by the claim theorems. -/

/-- Config {"Voltage":{"R":0,"T":5}} — it uses reserved datatype code 5. -/
def cfgT5 : ModbusConfig :=
  { baud := none, config := none, address := none, function := none
    quantities :=
      [some (QuantityVal.obj { R := some (RVal.num 0), T := some 5, F := none, M := none }),
       none, none, none, none, none, none, none, none]
    user := none }

/-- Config {"Address":1,"Voltage":[0,2,4]} — one device, three voltage phase registers. -/
def cfgPhaseArr : ModbusConfig :=
  { baud := some 9600, config := none, address := some (RVal.num 1), function := some 4
    quantities :=
      [some (QuantityVal.arr [0, 2, 4]), none, none, none, none, none, none, none, none]
    user := none }

/-- Config {"Address":[1,2,3],"Voltage":0,"Current":6} — three devices, scalar registers. -/
def cfgThreeDev : ModbusConfig :=
  { baud := some 9600, config := none, address := some (RVal.arr [1, 2, 3]), function := some 4
    quantities :=
      [some (QuantityVal.num 0), some (QuantityVal.num 6), none, none, none, none, none,
       none, none]
    user := none }

/-- A config whose "User" value is truthy but neither array nor object
("User":5): it counts one user_adds, triggering the user-array calloc, but
is never parsed. -/
def cfgUserOther : ModbusConfig :=
  { baud := none, config := none, address := none, function := none
    quantities := [none, none, none, none, none, none, none, none, none]
    user := some UserVal.otherV }

/-- A user entry carrying a 3-element "R" list, "T", "F" and "G" but missing
the mandatory "J" name. -/
def userEntryNoJ : UserFields :=
  { R := some (RVal.arr [352, 354, 356]), T := some 4, F := some (-1), M := none
    J := none, G := some "ImportActive", U := none, D := none }

/-- Config {"Address":[1,2,3],"User":{entry missing J}}. -/
def cfgDroppedUser : ModbusConfig :=
  { baud := none, config := none, address := some (RVal.arr [1, 2, 3]), function := none
    quantities := [none, none, none, none, none, none, none, none, none]
    user := some (UserVal.objV userEntryNoJ) }

theorem applyMultiDevice_regs (st : NrgState) : (applyMultiDevice st).regs = st.regs := by
  unfold applyMultiDevice; split <;> rfl

theorem applyMultiDevice_total_regs (st : NrgState) :
    (applyMultiDevice st).total_regs = st.total_regs := by
  unfold applyMultiDevice; split <;> rfl

theorem clampRegs_datatype_lt (l : List NrgMbsRegister) (n i : Nat) (h : i < n) :
    ((clampRegs n l).getD i defaultReg).datatype < NRG_DT_MAX := by
  induction l generalizing n i with
  | nil =>
    have : clampRegs n [] = [] := by cases n <;> rfl
    rw [this]
    simp [List.getD, defaultReg, NRG_DT_MAX]
  | cons r rest ih =>
    cases n with
    | zero => omega
    | succ m =>
      cases i with
      | zero =>
        show ((clampRegs (m + 1) (r :: rest)).getD 0 defaultReg).datatype < NRG_DT_MAX
        rw [show clampRegs (m + 1) (r :: rest)
            = (if NRG_DT_MAX ≤ r.datatype then { r with datatype := ENERGY_MODBUS_DATATYPE }
               else r) :: clampRegs m rest from rfl]
        split
        · simp [ENERGY_MODBUS_DATATYPE, NRG_DT_MAX]
        · simp only [List.getD_cons_zero]
          omega
      | succ j =>
        rw [show clampRegs (m + 1) (r :: rest)
            = (if NRG_DT_MAX ≤ r.datatype then { r with datatype := ENERGY_MODBUS_DATATYPE }
               else r) :: clampRegs m rest from rfl]
        simp only [List.getD_cons_succ]
        exact ih m j (by omega)

theorem finishBuild_datatype_lt (st : NrgState) (i : Nat)
    (h : i < (finishBuild st).total_regs) :
    (((finishBuild st).regs).getD i defaultReg).datatype < NRG_DT_MAX := by
  unfold finishBuild at h ⊢
  rw [applyMultiDevice_regs]
  rw [applyMultiDevice_total_regs] at h
  exact clampRegs_datatype_lt _ _ _ h

/-- C1 counterexample: the config {"Voltage":{"R":0,"T":5}} builds
successfully, yet the stored datatype of the voltage entry is the reserved
code 5, which is not among {0,1,2,3,4,6,8}: the build clamps only values at
or above NRG_DT_MAX and keeps codes 5 and 7. -/
theorem C1_counterexample :
    (EnergyModbusReadRegisters (some cfgT5) true true initState).1 = true ∧
    ((EnergyModbusReadRegisters (some cfgT5) true true initState).2.regs.getD 0
      defaultReg).datatype = 5 ∧
    ¬ (5 = 0 ∨ 5 = 1 ∨ 5 = 2 ∨ 5 = 3 ∨ 5 = 4 ∨ 5 = 6 ∨ 5 = 8) := by
  refine ⟨by decide, by decide, by decide⟩

/-- C1 amended: after a successful schema build, every register entry below
total_regs stores a datatype strictly below NRG_DT_MAX = 9 (any parsed value
at or above the enum's upper bound is clamped to the float32 default), but
the reserved codes 5 and 7 pass through unchanged, so the guarantee is
datatype ∈ {0,...,8}, not {0,1,2,3,4,6,8}. -/
theorem C1_datatype_clamped (cfg : Option ModbusConfig) (ra ua : Bool)
    (st0 st1 : NrgState) (h : EnergyModbusReadRegisters cfg ra ua st0 = (true, st1))
    (i : Nat) (hi : i < st1.total_regs) :
    (st1.regs.getD i defaultReg).datatype < NRG_DT_MAX := by
  cases cfg with
  | none => simp [EnergyModbusReadRegisters] at h
  | some c =>
    cases ra with
    | false => simp [EnergyModbusReadRegisters] at h
    | true =>
      have h2 : finishBuild (buildMain c ua (buildDefaults c st0)) = st1 :=
        congrArg Prod.snd h
      rw [← h2] at hi ⊢
      exact finishBuild_datatype_lt _ i hi

/-- C1 witness: instantiating the amended theorem on the cfgT5 build. -/
theorem C1_datatype_clamped_witness :
    ((EnergyModbusReadRegisters (some cfgT5) true true initState).2.regs.getD 0
      defaultReg).datatype < NRG_DT_MAX :=
  C1_datatype_clamped (some cfgT5) true true initState
    (EnergyModbusReadRegisters (some cfgT5) true true initState).2 rfl 0 (by decide)

/-- C2 counterexample: on the config {"User":5} the user-array calloc is
attempted (user_adds = 1) and fails, yet EnergyModbusReadRegisters returns
true — it rolls back only the user registers and proceeds, so the caller
does create the transport and start polling. -/
theorem C2_counterexample :
    (EnergyModbusReadRegisters (some cfgUserOther) true false initState).1 = true := by decide

/-- C2 amended: failure of the register-array allocation makes the build
return false for every config (and EnergyModbusSnsInit then creates no
transport); failure of the user-array allocation does NOT fail the build —
it resets user_adds to 0 and total_regs to NRG_MBS_MAX_REGS, leaves the user
array null, and the build succeeds. -/
theorem C2_allocation_failure :
    (∀ (cfg : Option ModbusConfig) (ua : Bool) (st0 : NrgState),
      (EnergyModbusReadRegisters cfg false ua st0).1 = false) ∧
    (∀ b : Bool, EnergyModbusSnsInitTransport false b = false) ∧
    ((EnergyModbusReadRegisters (some cfgUserOther) true false initState).1 = true ∧
     (EnergyModbusReadRegisters (some cfgUserOther) true false initState).2.user_adds = 0 ∧
     (EnergyModbusReadRegisters (some cfgUserOther) true false initState).2.total_regs
       = NRG_MBS_MAX_REGS ∧
     (EnergyModbusReadRegisters (some cfgUserOther) true false initState).2.user = none) := by
  refine ⟨fun cfg ua st0 => ?_, fun b => rfl, by decide, by decide, by decide, by decide⟩
  cases cfg <;> rfl

theorem applyPhaseRaise_pc_mono (p : Nat) (st : NrgState) :
    st.energy.phase_count ≤ (applyPhaseRaise p st).energy.phase_count := by
  unfold applyPhaseRaise
  split_ifs with h
  · exact Nat.le_of_lt h
  · exact Nat.le_refl _

theorem applySideFlags_pc (names p : Nat) (st : NrgState) :
    (applySideFlags names p st).energy.phase_count = st.energy.phase_count := by
  unfold applySideFlags
  split_ifs <;> rfl

theorem processQuantity_pc_mono (names : Nat) (q : QuantityVal) (st : NrgState) :
    st.energy.phase_count ≤ (processQuantity names q st).energy.phase_count := by
  unfold processQuantity
  cases q <;>
    (rw [applySideFlags_pc]
     refine Nat.le_trans ?_ (applyPhaseRaise_pc_mono _ _)
     exact Nat.le_refl _)

theorem applyUserMeta_energy (o : UserFields) (i : Nat) (st : NrgState) :
    (applyUserMeta o i st).2.energy = st.energy := by
  unfold applyUserMeta
  cases o.J with
  | none => rfl
  | some j => cases o.G <;> rfl

theorem EnergyModbusReadUserRegisters_pc_mono (o : UserFields) (i : Nat) (st : NrgState) :
    st.energy.phase_count ≤ (EnergyModbusReadUserRegisters o i st).2.energy.phase_count := by
  obtain ⟨R, T, F, M, J, G, U, D⟩ := o
  unfold EnergyModbusReadUserRegisters
  cases R with
  | none => exact Nat.le_refl _
  | some rv =>
    rw [applyUserMeta_energy]
    refine Nat.le_trans ?_ (applyPhaseRaise_pc_mono _ _)
    exact Nat.le_refl _

theorem buildDefaults_pc (c : ModbusConfig) (st0 : NrgState) :
    (buildDefaults c st0).energy.phase_count = 1 := by
  obtain ⟨b, cf, a, f, q, u⟩ := c
  unfold buildDefaults
  cases u with
  | none => rfl
  | some v => cases v <;> rfl

/-- C7: phase-count inference.  (1) {"Address":1,"Voltage":[0,2,4]} yields
phase_count 3, devices 1; (2) {"Address":[1,2,3]} with scalar quantity
addresses yields phase_count 3, devices 3; (3) the phase count starts at 1
after the defaults stage and (4,5) no built-in-quantity or user-register
processing step ever lowers it. -/
theorem C7_phase_count_inference :
    ((EnergyModbusReadRegisters (some cfgPhaseArr) true true initState).1 = true ∧
     (EnergyModbusReadRegisters (some cfgPhaseArr) true true
       initState).2.energy.phase_count = 3 ∧
     (EnergyModbusReadRegisters (some cfgPhaseArr) true true initState).2.devices = 1) ∧
    ((EnergyModbusReadRegisters (some cfgThreeDev) true true initState).1 = true ∧
     (EnergyModbusReadRegisters (some cfgThreeDev) true true
       initState).2.energy.phase_count = 3 ∧
     (EnergyModbusReadRegisters (some cfgThreeDev) true true initState).2.devices = 3) ∧
    (∀ (c : ModbusConfig) (st0 : NrgState),
      (buildDefaults c st0).energy.phase_count = 1) ∧
    (∀ (names : Nat) (q : QuantityVal) (st : NrgState),
      st.energy.phase_count ≤ (processQuantity names q st).energy.phase_count) ∧
    (∀ (o : UserFields) (i : Nat) (st : NrgState),
      st.energy.phase_count ≤ (EnergyModbusReadUserRegisters o i st).2.energy.phase_count) :=
  ⟨⟨by decide, by decide, by decide⟩, ⟨by decide, by decide, by decide⟩,
   buildDefaults_pc, processQuantity_pc_mono, EnergyModbusReadUserRegisters_pc_mono⟩

/-- The state just before user-register parsing for a config with
"Address":[1,2,3] and one user entry: ten calloc'd register entries, one
user slot (plus the spare), three devices, phase count 1. -/
def preDropState : NrgState :=
  { initState with
    energy := { initState.energy with phase_count := 1 }
    serial_bps := 9600
    device_address := [1, 2, 3]
    devices := 3
    function := 4
    total_regs := 10
    user_adds := 1
    regs := List.replicate 10 initReg
    user := some [initUserSlot, zeroUserSlot] }

/-- C10: dropping a user entry is not atomic.  A user entry with a valid
3-element "R" list plus "T" and "F" but no "J" name makes
EnergyModbusReadUserRegisters return false only after it has already written
the addresses, datatype and factor into register entry 9, raised the global
phase count to 3 and forced devices to 1; the caller then merely decrements
user_adds, so after the whole build those side effects persist while
user_adds is 0 and total_regs is back to NRG_MBS_MAX_REGS. -/
theorem C10_dropped_user_entry_side_effects :
    ((EnergyModbusReadUserRegisters userEntryNoJ 0 preDropState).1 = false ∧
     (EnergyModbusReadUserRegisters userEntryNoJ 0 preDropState).2.regs.getD 9 defaultReg
       = { address := [352, 354, 356], factor := -1, datatype := 4 } ∧
     (EnergyModbusReadUserRegisters userEntryNoJ 0 preDropState).2.energy.phase_count = 3 ∧
     (EnergyModbusReadUserRegisters userEntryNoJ 0 preDropState).2.devices = 1 ∧
     (EnergyModbusReadUserRegisters userEntryNoJ 0 preDropState).2.user
       = some [initUserSlot, zeroUserSlot]) ∧
    ((EnergyModbusReadRegisters (some cfgDroppedUser) true true initState).1 = true ∧
     (EnergyModbusReadRegisters (some cfgDroppedUser) true true initState).2.user_adds = 0 ∧
     (EnergyModbusReadRegisters (some cfgDroppedUser) true true initState).2.total_regs
       = NRG_MBS_MAX_REGS ∧
     (EnergyModbusReadRegisters (some cfgDroppedUser) true true initState).2.regs.getD 9
       defaultReg = { address := [352, 354, 356], factor := -1, datatype := 4 } ∧
     (EnergyModbusReadRegisters (some cfgDroppedUser) true true
       initState).2.energy.phase_count = 3 ∧
     (EnergyModbusReadRegisters (some cfgDroppedUser) true true initState).2.devices = 1) := by
  exact ⟨⟨by decide, by decide, by decide, by decide, by decide⟩,
         ⟨by decide, by decide, by decide, by decide, by decide, by decide⟩⟩

theorem routeEnergy_phase_count (state phase : Nat) (v : ℚ) (e : EnergyT) :
    (routeEnergy state phase v e).phase_count = e.phase_count := by
  rcases state with _|_|_|_|_|_|_|_|_|state <;> rfl

theorem routeValue_regs (st : NrgState) (v : ℚ) : (routeValue st v).regs = st.regs := rfl

theorem routeValue_retry (st : NrgState) (v : ℚ) : (routeValue st v).retry = st.retry := rfl

theorem routeValue_devices (st : NrgState) (v : ℚ) : (routeValue st v).devices = st.devices :=
  rfl

theorem routeValue_total_regs (st : NrgState) (v : ℚ) :
    (routeValue st v).total_regs = st.total_regs := rfl

theorem routeValue_phase_count (st : NrgState) (v : ℚ) :
    (routeValue st v).energy.phase_count = st.energy.phase_count :=
  routeEnergy_phase_count st.state st.phase v st.energy

theorem routeValue_state (st : NrgState) (v : ℚ) : (routeValue st v).state = st.state := rfl

theorem routeValue_phase (st : NrgState) (v : ℚ) : (routeValue st v).phase = st.phase := rfl

theorem consumeResponse_regs (st : NrgState) (v : ℚ) :
    (consumeResponse st v).1.regs = st.regs := rfl

theorem consumeResponse_retry (st : NrgState) (v : ℚ) :
    (consumeResponse st v).1.retry = st.retry := rfl

theorem consumeResponse_devices (st : NrgState) (v : ℚ) :
    (consumeResponse st v).1.devices = st.devices := rfl

theorem consumeResponse_total_regs (st : NrgState) (v : ℚ) :
    (consumeResponse st v).1.total_regs = st.total_regs := rfl

theorem consumeResponse_phase_count (st : NrgState) (v : ℚ) :
    (consumeResponse st v).1.energy.phase_count = st.energy.phase_count :=
  routeEnergy_phase_count _ _ _ _

theorem consumeResponse_cursor (st : NrgState) (v : ℚ) :
    ((consumeResponse st v).1.state, (consumeResponse st v).1.phase, (consumeResponse st v).2)
      = advanceLoop st.regs st.energy.phase_count st.total_regs st.devices
          (advanceFuel st) st.state st.phase 0 := by
  unfold consumeResponse advanceFuel
  dsimp only
  rw [routeValue_phase_count]
  dsimp only [routeValue_regs, routeValue_state, routeValue_phase, routeValue_devices,
    routeValue_total_regs]

/-- The example register table: registers 0-7 unconfigured (all sentinel),
register 8 (ExportActive) configured at address 74. -/
def exRegs : List NrgMbsRegister :=
  List.replicate 8 initReg ++ [{ address := [74, 65535, 65535], factor := 0, datatype := 0 }]

/-- A single-device single-phase running state whose cursor sits on the last
configured register with a retry budget of 1. -/
def exState : NrgState :=
  { initState with
    energy := { initState.energy with phase_count := 1, data_valid := [1, 1, 1] }
    device_address := [1, 0, 0]
    devices := 1
    function := 4
    total_regs := 9
    state := 8
    phase := 0
    retry := 1
    regs := exRegs }

/-- The same state with an exhausted retry budget. -/
def exStateRetry0 : NrgState := { exState with retry := 0 }

/-- C4: a transport receive error never moves the scan cursor, never writes
a measurement sink or the user value cache (the whole Energy record and the
user array are untouched), and never signals EnergyUpdateTotal; the tick has
no fatal outcome at all — it at most re-sends and adjusts the retry budget. -/
theorem C4_receive_error_is_soft (e : Nat) (st : NrgState) :
    (EnergyModbusLoop false (RxEvent.errorCode e) st).1.state = st.state ∧
    (EnergyModbusLoop false (RxEvent.errorCode e) st).1.phase = st.phase ∧
    (EnergyModbusLoop false (RxEvent.errorCode e) st).1.energy = st.energy ∧
    (EnergyModbusLoop false (RxEvent.errorCode e) st).1.user = st.user ∧
    (EnergyModbusLoop false (RxEvent.errorCode e) st).1.regs = st.regs ∧
    (EnergyModbusLoop false (RxEvent.errorCode e) st).2.2 = false := by
  unfold EnergyModbusLoop
  cases hm : st.mutex <;> simp [hm, rxReady]

/-- C5 counterexample: with retry budget 1 and a pending ERROR response, the
tick sends a new request anyway (and resets retry to 1) — the claim predicts
no send and a decrement, since this is neither the very first tick nor a
successfully consumed response nor an exhausted budget. -/
theorem C5_counterexample :
    exState.retry = 1 ∧
    (EnergyModbusLoop false (RxEvent.errorCode 9) exState).2.1.isSome = true ∧
    (EnergyModbusLoop false (RxEvent.errorCode 9) exState).1.retry = 1 := by
  refine ⟨by decide, by decide, by decide⟩

/-- C5 amended: on a non-skipped tick the engine sends at most one request
(the send outcome is one optional request by construction), and it sends
exactly when the retry budget is 0 or any response arrived this tick —
successfully consumed OR rejected with a transport error (data_ready, not
"successfully consumed", gates the send); on a send the budget is reset to
1, otherwise it is decremented by one and nothing is sent. -/
theorem C5_send_gating (rx : RxEvent) (st : NrgState) (hm : st.mutex = false) :
    ((st.retry = 0 ∨ rxReady rx = true) →
      (EnergyModbusLoop false rx st).2.1.isSome = true ∧
      (EnergyModbusLoop false rx st).1.retry = 1) ∧
    (¬ (st.retry = 0 ∨ rxReady rx = true) →
      (EnergyModbusLoop false rx st).2.1 = none ∧
      (EnergyModbusLoop false rx st).1.retry = st.retry - 1) := by
  unfold EnergyModbusLoop
  cases rx with
  | noData =>
    by_cases hr : st.retry = 0
    · simp [hm, rxReady, hr]
    · simp [hm, rxReady, hr]
  | errorCode e => simp [hm, rxReady]
  | value v =>
    rw [show rxReady (RxEvent.value v) = true from rfl]
    simp [hm]

/-- C5 witness: a tick with an exhausted retry budget and no pending data
sends a request and resets the budget. -/
theorem C5_send_gating_witness :
    (EnergyModbusLoop false RxEvent.noData exStateRetry0).2.1.isSome = true ∧
    (EnergyModbusLoop false RxEvent.noData exStateRetry0).1.retry = 1 :=
  (C5_send_gating RxEvent.noData exStateRetry0 rfl).1 (Or.inl rfl)

theorem advanceLoop_succ (regs : List NrgMbsRegister) (pc total devices fuel state phase p : Nat) :
    advanceLoop regs pc total devices (fuel + 1) state phase p =
      if pc ≤ phase + 1 then
        if total ≤ state + 1 then (0, 0, true)
        else if (regs.getD (state + 1) defaultReg).address.getD
            (if devices = 1 then 0 else p) 0 = nrg_mbs_reg_not_used then
          advanceLoop regs pc total devices fuel (state + 1) 0 (if devices = 1 then 0 else p)
        else (state + 1, 0, false)
      else if (regs.getD state defaultReg).address.getD
          (if devices = 1 then phase + 1 else p) 0 = nrg_mbs_reg_not_used then
        advanceLoop regs pc total devices fuel state (phase + 1)
          (if devices = 1 then phase + 1 else p)
      else (state, phase + 1, false) := rfl

/-- Behaviour of the cursor-advance loop under sufficient fuel: it either
wraps (resetting the cursor to (0,0) and firing the scan-cycle signal), or
stops with the signal unfired on an in-range cursor whose checked address
slot (the running phase for a single device, the entry slot p otherwise) is
not the sentinel. -/
theorem advanceLoop_spec (regs : List NrgMbsRegister) (pc total devices : Nat) :
    ∀ (fuel state phase p : Nat), phase < pc → state < total →
    (total - state) * pc - phase ≤ fuel →
    advanceLoop regs pc total devices fuel state phase p = (0, 0, true) ∨
    (∃ s2 p2, advanceLoop regs pc total devices fuel state phase p = (s2, p2, false) ∧
      s2 < total ∧ p2 < pc ∧
      (regs.getD s2 defaultReg).address.getD (if devices = 1 then p2 else p) 0
        ≠ nrg_mbs_reg_not_used) := by
  intro fuel
  induction fuel with
  | zero =>
    intro state phase p hphase hstate hfuel
    exfalso
    have h1 : pc ≤ (total - state) * pc := Nat.le_mul_of_pos_left pc (by omega)
    generalize hA : (total - state) * pc = A at h1 hfuel
    omega
  | succ fuel ih =>
    intro state phase p hphase hstate hfuel
    rw [advanceLoop_succ]
    by_cases h1 : pc ≤ phase + 1
    · rw [if_pos h1]
      by_cases h2 : total ≤ state + 1
      · rw [if_pos h2]
        exact Or.inl rfl
      · rw [if_neg h2]
        by_cases h3 : (regs.getD (state + 1) defaultReg).address.getD
            (if devices = 1 then 0 else p) 0 = nrg_mbs_reg_not_used
        · rw [if_pos h3]
          have hfuel2 : (total - (state + 1)) * pc - 0 ≤ fuel := by
            have e1 : total - state = (total - (state + 1)) + 1 := by omega
            rw [e1, Nat.add_mul, one_mul] at hfuel
            generalize hA : (total - (state + 1)) * pc = A at hfuel ⊢
            omega
          have H := ih (state + 1) 0 (if devices = 1 then 0 else p) (by omega) (by omega) hfuel2
          rcases H with H | ⟨s2, p2, Heq, hs, hp, hsent⟩
          · exact Or.inl H
          · refine Or.inr ⟨s2, p2, Heq, hs, hp, ?_⟩
            by_cases hd : devices = 1
            · simpa [hd] using hsent
            · simpa [hd] using hsent
        · rw [if_neg h3]
          exact Or.inr ⟨state + 1, 0, rfl, by omega, by omega, h3⟩
    · rw [if_neg h1]
      by_cases h3 : (regs.getD state defaultReg).address.getD
          (if devices = 1 then phase + 1 else p) 0 = nrg_mbs_reg_not_used
      · rw [if_pos h3]
        have hfuel2 : (total - state) * pc - (phase + 1) ≤ fuel := by
          generalize hA : (total - state) * pc = A at hfuel ⊢
          omega
        have H := ih state (phase + 1) (if devices = 1 then phase + 1 else p)
          (by omega) hstate hfuel2
        rcases H with H | ⟨s2, p2, Heq, hs, hp, hsent⟩
        · exact Or.inl H
        · refine Or.inr ⟨s2, p2, Heq, hs, hp, ?_⟩
          by_cases hd : devices = 1
          · simpa [hd] using hsent
          · simpa [hd] using hsent
      · rw [if_neg h3]
        exact Or.inr ⟨state, phase + 1, rfl, hstate, by omega, h3⟩

theorem loop_value_state (v : ℚ) (st : NrgState) (hm : st.mutex = false) :
    (EnergyModbusLoop false (RxEvent.value v) st).1
      = { (consumeResponse st v).1 with retry := 1 } := by
  unfold EnergyModbusLoop
  simp [hm, rxReady]

theorem loop_value_fired (v : ℚ) (st : NrgState) (hm : st.mutex = false) :
    (EnergyModbusLoop false (RxEvent.value v) st).2.2 = (consumeResponse st v).2 := by
  unfold EnergyModbusLoop
  simp [hm, rxReady]

/-- C3 counterexample: from a state whose cursor sits on the last configured
register (ExportActive, register 8) with registers 0-7 unconfigured, a good
response wraps the scan: EnergyUpdateTotal fires, but the wrap break skips
the sentinel check and the cursor comes to rest on register 0 phase 0 whose
address IS the "not used" sentinel — the next request goes to 0xFFFF. -/
theorem C3_counterexample :
    (EnergyModbusLoop false (RxEvent.value 5) exState).2.2 = true ∧
    (EnergyModbusLoop false (RxEvent.value 5) exState).1.state = 0 ∧
    (EnergyModbusLoop false (RxEvent.value 5) exState).1.phase = 0 ∧
    ((EnergyModbusLoop false (RxEvent.value 5) exState).1.regs.getD 0
      defaultReg).address.getD 0 0 = nrg_mbs_reg_not_used ∧ exState.devices = 1 := by
  refine ⟨by decide, by decide, by decide, by decide, by decide⟩

/-- C3 amended: consuming a good response either completes the sweep —
EnergyUpdateTotal fires exactly at that wrap and the cursor resets to (0,0)
WITHOUT a sentinel check (register 0 may carry the sentinel there, see the
counterexample) — or it leaves the signal unfired and rests the cursor on an
in-range position whose checked address slot (current phase in single-device
mode, slot 0 in multi-device mode) is not the sentinel; every sentinel
position in between is skipped by the advance loop. -/
theorem C3_sentinel_skip (v : ℚ) (st : NrgState) (hm : st.mutex = false)
    (hphase : st.phase < st.energy.phase_count) (hstate : st.state < st.total_regs) :
    ((EnergyModbusLoop false (RxEvent.value v) st).2.2 = true ∧
     (EnergyModbusLoop false (RxEvent.value v) st).1.state = 0 ∧
     (EnergyModbusLoop false (RxEvent.value v) st).1.phase = 0) ∨
    ((EnergyModbusLoop false (RxEvent.value v) st).2.2 = false ∧
     (EnergyModbusLoop false (RxEvent.value v) st).1.state < st.total_regs ∧
     (EnergyModbusLoop false (RxEvent.value v) st).1.phase < st.energy.phase_count ∧
     ((EnergyModbusLoop false (RxEvent.value v) st).1.regs.getD
         (EnergyModbusLoop false (RxEvent.value v) st).1.state defaultReg).address.getD
       (if st.devices = 1 then (EnergyModbusLoop false (RxEvent.value v) st).1.phase else 0) 0
       ≠ nrg_mbs_reg_not_used) := by
  have hst := loop_value_state v st hm
  have hfr := loop_value_fired v st hm
  have hcur := consumeResponse_cursor st v
  have hS : (EnergyModbusLoop false (RxEvent.value v) st).1.state
      = (consumeResponse st v).1.state := by rw [hst]
  have hP : (EnergyModbusLoop false (RxEvent.value v) st).1.phase
      = (consumeResponse st v).1.phase := by rw [hst]
  have hR : (EnergyModbusLoop false (RxEvent.value v) st).1.regs = st.regs := by
    rw [hst]; exact consumeResponse_regs st v
  have hfuel : (st.total_regs - st.state) * st.energy.phase_count - st.phase
      ≤ advanceFuel st := by
    have hb : (st.total_regs - st.state) * st.energy.phase_count
        ≤ st.total_regs * st.energy.phase_count :=
      Nat.mul_le_mul_right _ (Nat.sub_le _ _)
    unfold advanceFuel
    generalize hA : (st.total_regs - st.state) * st.energy.phase_count = A at hb ⊢
    generalize hB : st.total_regs * st.energy.phase_count = B at hb ⊢
    omega
  have hcs := congrArg (fun t => t.1) hcur
  have hcp := congrArg (fun t => t.2.1) hcur
  have hcf := congrArg (fun t => t.2.2) hcur
  simp only at hcs hcp hcf
  rcases advanceLoop_spec st.regs st.energy.phase_count st.total_regs st.devices
      (advanceFuel st) st.state st.phase 0 hphase hstate hfuel with
    Hw | ⟨s2, p2, Heq, hs2, hp2, hsent⟩
  · left
    refine ⟨?_, ?_, ?_⟩
    · rw [hfr, hcf, Hw]
    · rw [hS, hcs, Hw]
    · rw [hP, hcp, Hw]
  · right
    refine ⟨?_, ?_, ?_, ?_⟩
    · rw [hfr, hcf, Heq]
    · rw [hS, hcs, Heq]; exact hs2
    · rw [hP, hcp, Heq]; exact hp2
    · rw [hR, hS, hcs, hP, hcp, Heq]; exact hsent

/-- C3 witness: the amended theorem applied to the counterexample state. -/
theorem C3_sentinel_skip_witness :
    ((EnergyModbusLoop false (RxEvent.value 5) exState).2.2 = true ∧
     (EnergyModbusLoop false (RxEvent.value 5) exState).1.state = 0 ∧
     (EnergyModbusLoop false (RxEvent.value 5) exState).1.phase = 0) ∨
    ((EnergyModbusLoop false (RxEvent.value 5) exState).2.2 = false ∧
     (EnergyModbusLoop false (RxEvent.value 5) exState).1.state < exState.total_regs ∧
     (EnergyModbusLoop false (RxEvent.value 5) exState).1.phase < exState.energy.phase_count ∧
     ((EnergyModbusLoop false (RxEvent.value 5) exState).1.regs.getD
         (EnergyModbusLoop false (RxEvent.value 5) exState).1.state defaultReg).address.getD
       (if exState.devices = 1 then (EnergyModbusLoop false (RxEvent.value 5) exState).1.phase
        else 0) 0 ≠ nrg_mbs_reg_not_used) :=
  C3_sentinel_skip 5 exState rfl (by decide) (by decide)
